import Mathlib

/-!
Verification of the local Qwen model server (src/local-models/qwen_server.py).

The server is embedded shallowly:
* Python strings are Lean `String` (and `List Char` where character-level
  operations such as slicing, `in`, `replace` and `strip` are involved).
* The external model runtime (tokenizer call, `model.generate`, decode) is
  abstracted as function fields that may fail with a string error, matching
  the fact that any exception is observed only through `str(e)`.
* Machine-irrelevant effects (logging, device moves, CUDA tensor placement)
  are dropped: they do not influence any value the claims speak about.
-/

/-- Python `pat` is a prefix of `s` at the character level (used to model
both `str.startswith`-like tests and the scanning step of `str.replace`). -/
def matchesAt : List Char → List Char → Bool
  | [], _ => true
  | _ :: _, [] => false
  | p :: ps, c :: cs => p == c && matchesAt ps cs

/-- Python `pat in s`: `pat` occurs as a contiguous substring of `s`. -/
def containsSeq (pat : List Char) : List Char → Bool
  | [] => matchesAt pat []
  | c :: cs => matchesAt pat (c :: cs) || containsSeq pat cs

/-- The ChatML end-of-turn marker removed from responses. -/
def endMarker : List Char := "<|im_end|>".data

/-- Python `s.replace("<|im_end|>", "")`: one left-to-right scan; at each
position, if the (nonempty) marker matches it is skipped and scanning resumes
after it, else the character is kept.  The `fuel` argument only bounds the
recursion; `fuel = s.length` always suffices because every step consumes at
least one character of `s`. -/
def removeAux : Nat → List Char → List Char
  | _, [] => []
  | 0, s => s
  | fuel + 1, c :: cs =>
    if matchesAt endMarker (c :: cs) then removeAux fuel (List.drop endMarker.length (c :: cs))
    else c :: removeAux fuel cs

/-- Python `s.replace("<|im_end|>", "")` on the character list of `s`. -/
def removeEndMarkers (s : List Char) : List Char := removeAux s.length s

/-- The whitespace characters stripped by Python `str.strip()` (the ASCII
whitespace class, which is what all strings in this server can contain). -/
def isPySpace (c : Char) : Bool :=
  c == ' ' || c == '\t' || c == '\n' || c == '\r' || c == '\x0b' || c == '\x0c'

/-- Python `s.strip()`: drop leading and trailing whitespace. -/
def pyStrip (s : List Char) : List Char :=
  ((s.dropWhile isPySpace).reverse.dropWhile isPySpace).reverse

/-- Pydantic `Message`: a chat turn (`role`, `content`). -/
structure Message where
  role : String
  content : String
  deriving DecidableEq

/-- Loop body of `format_messages`: `formatted += block` for the three
recognized roles, `formatted` unchanged otherwise (the `if`/`elif` chain). -/
def fmStep (formatted : String) (message : Message) : String :=
  if message.role = "system" then
    formatted ++ ("<|im_start|>system\n" ++ message.content ++ "<|im_end|>\n")
  else if message.role = "user" then
    formatted ++ ("<|im_start|>user\n" ++ message.content ++ "<|im_end|>\n")
  else if message.role = "assistant" then
    formatted ++ ("<|im_start|>assistant\n" ++ message.content ++ "<|im_end|>\n")
  else formatted

/-- `format_messages` from the server: fold the loop body over the messages
starting from the empty string, then append the open assistant marker. -/
def format_messages (messages : List Message) : String :=
  (messages.foldl fmStep "") ++ "<|im_start|>assistant\n"

/-- Lines 216-223 of the handler: if the rendered prompt occurs in the decoded
text (Python `prompt in generated`), keep `generated[len(prompt):]`, else keep
all of `generated`; then remove end markers and strip whitespace. -/
def extractContent (prompt generated : String) : String :=
  let response_text : List Char :=
    if containsSeq prompt.data generated.data then generated.data.drop prompt.data.length
    else generated.data
  String.mk (pyStrip (removeEndMarkers response_text))

/-- `GenerationConfig` as built inside the handler. -/
structure GenerationConfig where
  max_new_tokens : Nat
  temperature : Rat
  top_p : Rat
  top_k : Nat
  do_sample : Bool
  pad_token_id : Nat
  eos_token_id : Nat

/-- The loaded tokenizer: the runtime calls the handler makes on it, as
fallible functions, plus its configured special token ids. -/
structure Tokenizer where
  tokenizeFn : String → Except String (List Nat)
  decodeFn : List Nat → Except String String
  pad_token_id : Nat
  eos_token_id : Nat

/-- The loaded model: its `generate` routine, which receives the generation
config and the input ids and returns the full output id sequence. -/
structure Model where
  generateFn : GenerationConfig → List Nat → Except String (List Nat)

/-- The two process-wide handles (`model`, `tokenizer`), each possibly
unpopulated. -/
structure ServerState where
  model : Option Model
  tokenizer : Option Tokenizer

/-- Pydantic `GenerateRequest` (defaults in the source: max_tokens 512,
temperature 0.7, top_p 0.95, top_k 40, stream false). -/
structure GenerateRequest where
  messages : List Message
  max_tokens : Nat
  temperature : Rat
  top_p : Rat
  top_k : Nat
  stream : Bool

/-- The usage dictionary of a successful response.  Counts are Python ints,
so they are modelled as `Int` (subtraction does not truncate). -/
structure Usage where
  prompt_tokens : Int
  completion_tokens : Int
  total_tokens : Int
  deriving DecidableEq

/-- Pydantic `GenerateResponse`. -/
structure GenerateResponse where
  content : String
  usage : Usage
  deriving DecidableEq

/-- `HTTPException(status_code, detail)` as observed by the caller. -/
structure HTTPError where
  status_code : Nat
  detail : String
  deriving DecidableEq

/-- The `GenerationConfig(...)` construction in the handler: request
parameters passed through unchanged, `do_sample=True`, pad/eos ids taken
from the tokenizer. -/
def buildGenerationConfig (request : GenerateRequest) (tokenizer : Tokenizer) : GenerationConfig :=
  ⟨request.max_tokens, request.temperature, request.top_p, request.top_k, true,
   tokenizer.pad_token_id, tokenizer.eos_token_id⟩

/-- The `/generate` handler.  The unpopulated-handle check comes first; the
remaining steps run inside `try`, every failure becoming a 500 error carrying
the exception text. -/
def generate (state : ServerState) (request : GenerateRequest) :
    Except HTTPError GenerateResponse :=
  match state.model, state.tokenizer with
  | some model, some tokenizer =>
    let prompt := format_messages request.messages
    match tokenizer.tokenizeFn prompt with
    | .error e => .error ⟨500, e⟩
    | .ok input_ids =>
      match model.generateFn (buildGenerationConfig request tokenizer) input_ids with
      | .error e => .error ⟨500, e⟩
      | .ok outputs =>
        match tokenizer.decodeFn outputs with
        | .error e => .error ⟨500, e⟩
        | .ok generated =>
          let response_text := extractContent prompt generated
          let prompt_tokens : Int := input_ids.length
          let completion_tokens : Int := (outputs.length : Int) - input_ids.length
          .ok ⟨response_text, ⟨prompt_tokens, completion_tokens,
               prompt_tokens + completion_tokens⟩⟩
  | _, _ => .error ⟨500, "Model not loaded"⟩

/-- Torch dtypes used by the loader. -/
inductive TorchDtype
  | float16
  | float32
  deriving DecidableEq

/-- `BitsAndBytesConfig` as built by the loader for the 4-bit path. -/
structure BitsAndBytesConfig where
  load_in_4bit : Bool
  bnb_4bit_compute_dtype : TorchDtype
  bnb_4bit_use_double_quant : Bool
  bnb_4bit_quant_type : String
  deriving DecidableEq

/-- The keyword arguments of one `AutoModelForCausalLM.from_pretrained` call;
absent keyword arguments are `none`/`false`. -/
structure ModelLoadCfg where
  name : String
  cache_dir : String
  trust_remote_code : Bool
  quantization_config : Option BitsAndBytesConfig
  device_map : Option String
  torch_dtype : TorchDtype
  low_cpu_mem_usage : Bool
  offload_folder : Option String
  offload_state_dict : Bool

/-- Startup environment of the loader: whether `torch.cuda.is_available()`
and whether `import bitsandbytes` succeeds. -/
structure LoadEnv where
  cuda_available : Bool
  bnb_importable : Bool

/-- The hardcoded smaller model substituted on the CPU path. -/
def fallbackModelName : String := "Qwen/Qwen2.5-Coder-7B-Instruct"

/-- Model-name resolution of the loader: on the CPU path a name containing
"30B" or "32B" is replaced by the hardcoded smaller model; with an
accelerator the name is used unchanged. -/
def resolveModelName (env : LoadEnv) (model_name : String) : String :=
  if env.cuda_available then model_name
  else if containsSeq "30B".data model_name.data || containsSeq "32B".data model_name.data then
    fallbackModelName
  else model_name

/-- Quantization choice of the loader: 4-bit `BitsAndBytesConfig` only when
CUDA is available and bitsandbytes imports; otherwise `None`. -/
def quantChoice (env : LoadEnv) : Option BitsAndBytesConfig :=
  if env.cuda_available then
    if env.bnb_importable then some ⟨true, .float16, true, "nf4"⟩ else none
  else none

/-- The first `from_pretrained` attempt: the quantized call when a
quantization config was selected, else the plain call (device_map "auto" and
float16 only with CUDA, `low_cpu_mem_usage=True`). -/
def firstLoadCfg (env : LoadEnv) (cache_dir resolved : String) : ModelLoadCfg :=
  match quantChoice env with
  | some q => ⟨resolved, cache_dir, true, some q, some "auto", .float16, false, none, false⟩
  | none => ⟨resolved, cache_dir, true, none,
      (if env.cuda_available then some "auto" else none),
      (if env.cuda_available then .float16 else .float32), true, none, false⟩

/-- The single retry after a failed first attempt: full precision (float32),
device_map "auto", state-dict offloading into the "offload" subdirectory of
the cache directory. -/
def retryLoadCfg (cache_dir resolved : String) : ModelLoadCfg :=
  ⟨resolved, cache_dir, true, none, some "auto", .float32, false,
   some (cache_dir ++ "/offload"), true⟩

/-- `load_model`: resolve the name, fetch the tokenizer (failures propagate),
try the first model fetch, on failure retry once with the offload config, and
let a failure of the retry propagate.  The fetchers stand for the external
`from_pretrained` calls; the device move `model.to("cpu")` is a no-op in this
value-level model. -/
def load_model (env : LoadEnv) (cache_dir : String)
    (fetchTokenizer : String → Except String Tokenizer)
    (fetchModel : ModelLoadCfg → Except String Model)
    (model_name : String) : Except String (Model × Tokenizer) :=
  let resolved := resolveModelName env model_name
  match fetchTokenizer resolved with
  | .error e => .error e
  | .ok tok =>
    match fetchModel (firstLoadCfg env cache_dir resolved) with
    | .ok m => .ok (m, tok)
    | .error _ =>
      match fetchModel (retryLoadCfg cache_dir resolved) with
      | .ok m => .ok (m, tok)
      | .error e => .error e

/-- One ChatML block per recognized message, following the words of the
specification: the start marker plus the role name, a newline, the literal
content, the end marker and a newline; `none` for any other role. -/
def roleBlock (message : Message) : Option String :=
  if message.role = "system" ∨ message.role = "user" ∨ message.role = "assistant" then
    some ("<|im_start|>" ++ message.role ++ "\n" ++ message.content ++ "<|im_end|>\n")
  else none

/-- Concatenation of a list of strings in order. -/
def concatList : List String → String
  | [] => ""
  | s :: rest => s ++ concatList rest

/-- Specification-side renderer: concatenation, in input order, of one block
per recognized message (others omitted entirely), followed by exactly one
trailing open assistant marker with no content. -/
def renderSpec (messages : List Message) : String :=
  concatList (messages.filterMap roleBlock) ++ "<|im_start|>assistant\n"

/-! Helper lemmas shared by the claim theorems. -/

lemma matchesAt_iff (pat : List Char) : ∀ s : List Char, matchesAt pat s = true ↔ pat <+: s := by
  induction pat with
  | nil => intro s; simp [matchesAt]
  | cons p ps ih =>
    intro s
    cases s with
    | nil => simp [matchesAt]
    | cons c cs => simp [matchesAt, ih, List.cons_prefix_cons]

lemma containsSeq_iff (pat : List Char) : ∀ s : List Char, containsSeq pat s = true ↔ pat <:+: s := by
  intro s
  induction s with
  | nil =>
    simp only [containsSeq, matchesAt_iff, List.infix_nil, List.prefix_nil]
  | cons c cs ih =>
    simp [containsSeq, matchesAt_iff, ih, List.infix_cons_iff]

lemma matchesAt_contains (pat s : List Char) (h : matchesAt pat s = true) :
    containsSeq pat s = true :=
  (containsSeq_iff pat s).mpr ((matchesAt_iff pat s).mp h).isInfix

lemma containsSeq_false_of_substring (pat t s : List Char) (hts : t <:+: s)
    (h : containsSeq pat s = false) : containsSeq pat t = false := by
  by_contra hc
  have ht : containsSeq pat t = true := by
    cases hcv : containsSeq pat t with
    | false => exact absurd hcv hc
    | true => rfl
  have : containsSeq pat s = true :=
    (containsSeq_iff pat s).mpr (((containsSeq_iff pat t).mp ht).trans hts)
  rw [this] at h
  exact Bool.true_eq_false.mp h

lemma removeAux_marker_free : ∀ (fuel : Nat) (s : List Char),
    containsSeq endMarker s = false → removeAux fuel s = s := by
  intro fuel
  induction fuel with
  | zero => intro s _; cases s <;> rfl
  | succ n ih =>
    intro s h
    cases s with
    | nil => rfl
    | cons c cs =>
      rw [containsSeq, Bool.or_eq_false_iff] at h
      rw [removeAux, if_neg (by rw [h.1]; exact Bool.false_ne_true), ih cs h.2]

lemma removeEndMarkers_marker_free (s : List Char) (h : containsSeq endMarker s = false) :
    removeEndMarkers s = s :=
  removeAux_marker_free s.length s h

lemma head?_dropWhile (p : Char → Bool) : ∀ (l : List Char) (c : Char),
    (l.dropWhile p).head? = some c → p c = false := by
  intro l
  induction l with
  | nil => intro c h; simp [List.dropWhile] at h
  | cons a t ih =>
    intro c h
    rw [List.dropWhile_cons] at h
    by_cases hp : p a = true
    · rw [if_pos hp] at h
      exact ih c h
    · rw [if_neg hp] at h
      simp only [List.head?_cons, Option.some.injEq] at h
      rw [← h]
      exact Bool.not_eq_true _ |>.mp hp

lemma getLast?_dropWhile (p : Char → Bool) (l : List Char) (c : Char)
    (h : (l.dropWhile p).getLast? = some c) : l.getLast? = some c := by
  obtain ⟨t, ht⟩ := List.dropWhile_suffix (l := l) p
  rw [← ht, List.getLast?_append, h]
  rfl

lemma pyStrip_head (s : List Char) (c : Char) (h : (pyStrip s).head? = some c) :
    isPySpace c = false := by
  rw [pyStrip, List.head?_reverse] at h
  have h2 := getLast?_dropWhile isPySpace ((s.dropWhile isPySpace).reverse) c h
  rw [List.getLast?_reverse] at h2
  exact head?_dropWhile isPySpace _ c h2

lemma pyStrip_last (s : List Char) (c : Char) (h : (pyStrip s).getLast? = some c) :
    isPySpace c = false := by
  rw [pyStrip, List.getLast?_reverse] at h
  exact head?_dropWhile isPySpace _ c h

lemma pyStrip_substring (s : List Char) : pyStrip s <:+: s := by
  have hx : s.dropWhile isPySpace <:+ s := List.dropWhile_suffix isPySpace
  have hz : (s.dropWhile isPySpace).reverse.dropWhile isPySpace <:+
      (s.dropWhile isPySpace).reverse := List.dropWhile_suffix isPySpace
  have hzr : pyStrip s <+: s.dropWhile isPySpace := by
    rw [← List.reverse_suffix, pyStrip, List.reverse_reverse]
    exact hz
  exact (hzr.isInfix).trans hx.isInfix

lemma fmStep_eq (acc : String) (m : Message) : fmStep acc m = acc ++ (roleBlock m).getD "" := by
  rcases m with ⟨role, content⟩
  simp only [fmStep, roleBlock]
  by_cases h1 : role = "system"
  · subst h1
    rw [if_pos rfl, if_pos (Or.inl rfl)]
    show _ = acc ++ ((("<|im_start|>" ++ "system" ++ "\n") ++ content) ++ "<|im_end|>\n")
    rfl
  · rw [if_neg h1]
    by_cases h2 : role = "user"
    · subst h2
      rw [if_pos rfl, if_pos (Or.inr (Or.inl rfl))]
      show _ = acc ++ ((("<|im_start|>" ++ "user" ++ "\n") ++ content) ++ "<|im_end|>\n")
      rfl
    · rw [if_neg h2]
      by_cases h3 : role = "assistant"
      · subst h3
        rw [if_pos rfl, if_pos (Or.inr (Or.inr rfl))]
        show _ = acc ++ ((("<|im_start|>" ++ "assistant" ++ "\n") ++ content) ++ "<|im_end|>\n")
        rfl
      · rw [if_neg h3, if_neg (by push_neg; exact ⟨h1, h2, h3⟩)]
        exact (String.append_empty acc).symm

lemma foldl_fmStep (messages : List Message) : ∀ acc : String,
    messages.foldl fmStep acc = acc ++ concatList (messages.filterMap roleBlock) := by
  induction messages with
  | nil => intro acc; simp [concatList]
  | cons m ms ih =>
    intro acc
    rw [List.foldl_cons, ih (fmStep acc m), fmStep_eq, List.filterMap_cons]
    cases h : roleBlock m with
    | none => simp [concatList]
    | some b => simp [concatList, String.append_assoc]

lemma mem_concatList_substring (s : String) : ∀ l : List String, s ∈ l →
    s.data <:+: (concatList l).data := by
  intro l
  induction l with
  | nil => intro h; exact absurd h (List.not_mem_nil s)
  | cons a rest ih =>
    intro h
    rcases List.mem_cons.mp h with h | h
    · subst h
      show s.data <:+: (s ++ concatList rest).data
      rw [String.data_append]
      exact (List.prefix_append s.data _).isInfix
    · show s.data <:+: (a ++ concatList rest).data
      rw [String.data_append]
      exact (ih h).trans (List.suffix_append a.data _).isInfix

/-- The usage dictionary of a handler result, when the result is a success. -/
def responseUsage : Except HTTPError GenerateResponse → Option Usage
  | .ok r => some r.usage
  | .error _ => none

/-! Claim theorems. -/

/-- C2 (confirmed): for every ordered sequence of messages, the formatter
returns the concatenation, in input order, of one fixed-delimiter block per
recognized-role message (any other role omitted entirely), followed by exactly
one trailing open assistant marker with no content; and the single user
message "Hi" renders exactly the expected ChatML string. -/
theorem C2_format_messages (messages : List Message) :
    format_messages messages = renderSpec messages
    ∧ format_messages [⟨"user", "Hi"⟩]
        = "<|im_start|>user\nHi<|im_end|>\n<|im_start|>assistant\n" := by
  constructor
  · unfold format_messages renderSpec
    rw [foldl_fmStep, String.empty_append]
  · rfl

/-- C3 (confirmed): while either process-wide handle is unpopulated, every
request fails with HTTP 500 and the fixed message "Model not loaded" — for
every request and every state of the (possibly present) other handle, so no
tokenization or generation function is ever consulted and no crash occurs. -/
theorem C3_model_not_loaded (state : ServerState) (request : GenerateRequest)
    (h : state.model = none ∨ state.tokenizer = none) :
    generate state request = .error ⟨500, "Model not loaded"⟩ := by
  rcases state with ⟨m, t⟩
  rcases h with h | h
  · have hm : m = none := h
    subst hm
    cases t <;> rfl
  · have ht : t = none := h
    subst ht
    cases m <;> rfl

/-- Witness for C3: a concrete early request against the empty state. -/
theorem C3_model_not_loaded_witness :
    generate ⟨none, none⟩ ⟨[], 512, 1, 1, 40, false⟩ = .error ⟨500, "Model not loaded"⟩ :=
  C3_model_not_loaded ⟨none, none⟩ ⟨[], 512, 1, 1, 40, false⟩ (Or.inl rfl)

/-- C7 (confirmed): for every successful response, prompt_tokens is the input
token count, completion_tokens is the total output token count minus the
input token count, total_tokens is their sum, and therefore total_tokens
equals the total output token count. -/
theorem C7_usage_totals (model : Model) (tok : Tokenizer) (request : GenerateRequest)
    (input_ids outputs : List Nat) (generated : String)
    (h1 : tok.tokenizeFn (format_messages request.messages) = .ok input_ids)
    (h2 : model.generateFn (buildGenerationConfig request tok) input_ids = .ok outputs)
    (h3 : tok.decodeFn outputs = .ok generated) :
    ∀ u : Usage, responseUsage (generate ⟨some model, some tok⟩ request) = some u →
      u.prompt_tokens = input_ids.length
      ∧ u.completion_tokens = (outputs.length : Int) - input_ids.length
      ∧ u.total_tokens = u.prompt_tokens + u.completion_tokens
      ∧ u.total_tokens = outputs.length := by
  intro u hu
  simp only [generate, h1, h2, h3, responseUsage] at hu
  injection hu with hu
  subst hu
  refine ⟨rfl, rfl, rfl, ?_⟩
  show (input_ids.length : Int) + ((outputs.length : Int) - input_ids.length) = outputs.length
  omega

/-- Witness for C7 at a concrete loaded state: one prompt token, three output
tokens, usage (1, 2, 3). -/
theorem C7_usage_totals_witness :
    (⟨1, 2, 3⟩ : Usage).prompt_tokens = (([5] : List Nat).length : Int)
    ∧ (⟨1, 2, 3⟩ : Usage).completion_tokens
        = (([5, 6, 7] : List Nat).length : Int) - ([5] : List Nat).length
    ∧ (⟨1, 2, 3⟩ : Usage).total_tokens
        = (⟨1, 2, 3⟩ : Usage).prompt_tokens + (⟨1, 2, 3⟩ : Usage).completion_tokens
    ∧ (⟨1, 2, 3⟩ : Usage).total_tokens = (([5, 6, 7] : List Nat).length : Int) :=
  C7_usage_totals ⟨fun _ _ => .ok [5, 6, 7]⟩ ⟨fun _ => .ok [5], fun _ => .ok "hi", 0, 0⟩
    ⟨[], 512, 1, 1, 40, false⟩ [5] [5, 6, 7] "hi" rfl rfl rfl ⟨1, 2, 3⟩ rfl

/-- C8 (confirmed): two requests identical except for `stream` produce the
identical result in every server state — the field is never read. -/
theorem C8_stream_inert (state : ServerState) (messages : List Message)
    (max_tokens : Nat) (temperature top_p : Rat) (top_k : Nat) (s1 s2 : Bool) :
    generate state ⟨messages, max_tokens, temperature, top_p, top_k, s1⟩
      = generate state ⟨messages, max_tokens, temperature, top_p, top_k, s2⟩ := by
  rcases state with ⟨m, t⟩
  cases m <;> cases t <;> rfl

/-- C9 (confirmed): after the loaded-check passes, a failure raised at the
tokenize step, the generate step or the decode step is reported as HTTP 500
carrying the exception text, the same status as "Model not loaded"; the
handler returns normally (no crash). -/
theorem C9_exceptions_are_500 (model : Model) (tok : Tokenizer) (request : GenerateRequest) :
    (∀ e, tok.tokenizeFn (format_messages request.messages) = .error e →
       generate ⟨some model, some tok⟩ request = .error ⟨500, e⟩)
    ∧ (∀ input_ids e, tok.tokenizeFn (format_messages request.messages) = .ok input_ids →
        model.generateFn (buildGenerationConfig request tok) input_ids = .error e →
        generate ⟨some model, some tok⟩ request = .error ⟨500, e⟩)
    ∧ (∀ input_ids outputs e, tok.tokenizeFn (format_messages request.messages) = .ok input_ids →
        model.generateFn (buildGenerationConfig request tok) input_ids = .ok outputs →
        tok.decodeFn outputs = .error e →
        generate ⟨some model, some tok⟩ request = .error ⟨500, e⟩) := by
  refine ⟨?_, ?_, ?_⟩
  · intro e h1
    simp only [generate, h1]
  · intro input_ids e h1 h2
    simp only [generate, h1, h2]
  · intro input_ids outputs e h1 h2 h3
    simp only [generate, h1, h2, h3]

/-- Witness for C9: a tokenizer that raises is reported as a 500 with the
exception text. -/
theorem C9_exceptions_are_500_witness :
    generate ⟨some ⟨fun _ _ => .ok []⟩,
        some ⟨fun _ => .error "tokenizer blew up", fun _ => .ok "", 0, 0⟩⟩
      ⟨[], 512, 1, 1, 40, false⟩ = .error ⟨500, "tokenizer blew up"⟩ :=
  (C9_exceptions_are_500 ⟨fun _ _ => .ok []⟩
    ⟨fun _ => .error "tokenizer blew up", fun _ => .ok "", 0, 0⟩
    ⟨[], 512, 1, 1, 40, false⟩).1 "tokenizer blew up" rfl

/-- C10 (confirmed): the content of every recognized-role message appears
verbatim as a contiguous substring of the rendered prompt, and so does every
substring of it — in particular marker strings inside the content land
literally in the prompt, which is what makes turn-block forgery possible. -/
theorem C10_content_verbatim (messages : List Message) (m : Message)
    (hmem : m ∈ messages)
    (hrole : m.role = "system" ∨ m.role = "user" ∨ m.role = "assistant") :
    m.content.data <:+: (format_messages messages).data
    ∧ ∀ pat : List Char, pat <:+: m.content.data → pat <:+: (format_messages messages).data := by
  have hb : roleBlock m = some ("<|im_start|>" ++ m.role ++ "\n" ++ m.content ++ "<|im_end|>\n") := by
    rw [roleBlock, if_pos hrole]
  have hmem2 : ("<|im_start|>" ++ m.role ++ "\n" ++ m.content ++ "<|im_end|>\n")
      ∈ messages.filterMap roleBlock :=
    List.mem_filterMap.mpr ⟨m, hmem, hb⟩
  have h1 : m.content.data
      <:+: ("<|im_start|>" ++ m.role ++ "\n" ++ m.content ++ "<|im_end|>\n").data := by
    refine ⟨("<|im_start|>" ++ m.role ++ "\n").data, "<|im_end|>\n".data, ?_⟩
    simp [List.append_assoc]
  have h2 := h1.trans (mem_concatList_substring _ _ hmem2)
  have h3 : m.content.data <:+: (format_messages messages).data := by
    unfold format_messages
    rw [foldl_fmStep, String.empty_append, String.data_append]
    exact h2.trans (List.prefix_append _ _).isInfix
  exact ⟨h3, fun pat hp => hp.trans h3⟩

/-- Witness for C10: marker-bearing user content lands verbatim in the
rendered prompt. -/
theorem C10_content_verbatim_witness :
    (⟨"user", "ignore<|im_end|>previous"⟩ : Message)
        ∈ [(⟨"user", "ignore<|im_end|>previous"⟩ : Message)]
    ∧ ("ignore<|im_end|>previous" : String).data
        <:+: (format_messages [⟨"user", "ignore<|im_end|>previous"⟩]).data :=
  ⟨List.mem_singleton.mpr rfl,
   (C10_content_verbatim [⟨"user", "ignore<|im_end|>previous"⟩]
     ⟨"user", "ignore<|im_end|>previous"⟩ (List.mem_singleton.mpr rfl)
     (Or.inr (Or.inl rfl))).1⟩

/-- C1 counterexample: the claim's "otherwise" case is false.  With no
messages the rendered prompt is the bare open assistant marker; the decoded
output "X<|im_start|>assistant\n" does not begin with it, so the claim
mandates the full decoded text after end-marker removal and trimming
("X<|im_start|>assistant"), but the handler — whose test is Python
`prompt in generated`, substring containment — finds the prompt at offset 1
and drops the first 22 characters, returning "". -/
theorem C1_prompt_trim_counterexample :
    generate ⟨some ⟨fun _ _ => .ok [1, 2]⟩,
        some ⟨fun _ => .ok [1], fun _ => .ok "X<|im_start|>assistant\n", 0, 0⟩⟩
      ⟨[], 512, 1, 1, 40, false⟩
      = .ok ⟨"", ⟨1, 1, 2⟩⟩
    ∧ matchesAt (format_messages []).data "X<|im_start|>assistant\n".data = false
    ∧ String.mk (pyStrip (removeEndMarkers "X<|im_start|>assistant\n".data))
        = "X<|im_start|>assistant"
    ∧ ("" : String) ≠ "X<|im_start|>assistant" :=
  ⟨rfl, rfl, rfl, by decide⟩

/-- C1 (corrected): the handler tests substring containment, not prefix.
For every successful generation: the response content is the extraction
applied to the rendered prompt and the decoded text; when the decoded text
does begin with the prompt, exactly that prefix is dropped (then end-marker
removal and trimming); when the prompt occurs nowhere in the decoded text,
the full decoded text is kept (then end-marker removal and trimming).  The
remaining case — prompt occurring only in the interior — is the one the
counterexample shows deviating from the claim. -/
theorem C1_prompt_trim_amended (model : Model) (tok : Tokenizer) (request : GenerateRequest)
    (input_ids outputs : List Nat) (generated : String)
    (h1 : tok.tokenizeFn (format_messages request.messages) = .ok input_ids)
    (h2 : model.generateFn (buildGenerationConfig request tok) input_ids = .ok outputs)
    (h3 : tok.decodeFn outputs = .ok generated) :
    generate ⟨some model, some tok⟩ request =
      .ok ⟨extractContent (format_messages request.messages) generated,
        ⟨(input_ids.length : Int), (outputs.length : Int) - input_ids.length,
         (input_ids.length : Int) + ((outputs.length : Int) - input_ids.length)⟩⟩
    ∧ (matchesAt (format_messages request.messages).data generated.data = true →
        extractContent (format_messages request.messages) generated
          = String.mk (pyStrip (removeEndMarkers
              (generated.data.drop (format_messages request.messages).data.length))))
    ∧ (containsSeq (format_messages request.messages).data generated.data = false →
        extractContent (format_messages request.messages) generated
          = String.mk (pyStrip (removeEndMarkers generated.data))) := by
  refine ⟨?_, ?_, ?_⟩
  · simp only [generate, h1, h2, h3]
  · intro hpre
    simp only [extractContent]
    rw [if_pos (matchesAt_contains _ _ hpre)]
  · intro hnc
    simp only [extractContent]
    rw [if_neg (by rw [hnc]; exact Bool.false_ne_true)]

/-- Witness for the amended C1: a decoded text that does not contain the
prompt at all is returned whole, modulo end-marker removal and trimming. -/
theorem C1_prompt_trim_amended_witness :
    generate ⟨some ⟨fun _ _ => .ok [1, 2]⟩, some ⟨fun _ => .ok [1], fun _ => .ok "abc", 0, 0⟩⟩
      ⟨[], 512, 1, 1, 40, false⟩
      = .ok ⟨extractContent (format_messages []) "abc", ⟨1, 1, 2⟩⟩
    ∧ containsSeq (format_messages []).data ("abc" : String).data = false
    ∧ extractContent (format_messages []) "abc"
        = String.mk (pyStrip (removeEndMarkers ("abc" : String).data)) :=
  ⟨(C1_prompt_trim_amended ⟨fun _ _ => .ok [1, 2]⟩ ⟨fun _ => .ok [1], fun _ => .ok "abc", 0, 0⟩
      ⟨[], 512, 1, 1, 40, false⟩ [1] [1, 2] "abc" rfl rfl rfl).1,
   rfl,
   (C1_prompt_trim_amended ⟨fun _ _ => .ok [1, 2]⟩ ⟨fun _ => .ok [1], fun _ => .ok "abc", 0, 0⟩
      ⟨[], 512, 1, 1, 40, false⟩ [1] [1, 2] "abc" rfl rfl rfl).2.2 rfl⟩

/-- C4 (confirmed): when the first model fetch fails, exactly one retry is
made, with no quantization, full-precision float32 weights, and on-disk
state-dict offloading into the "offload" subdirectory of the cache directory;
the loader's result is exactly the retry's result, so a retry failure
propagates out of the loader and there is no further retry. -/
theorem C4_single_retry (env : LoadEnv) (cache_dir model_name : String)
    (fetchTokenizer : String → Except String Tokenizer)
    (fetchModel : ModelLoadCfg → Except String Model)
    (tok : Tokenizer) (e : String)
    (htok : fetchTokenizer (resolveModelName env model_name) = .ok tok)
    (hfail : fetchModel (firstLoadCfg env cache_dir (resolveModelName env model_name))
        = .error e) :
    ((retryLoadCfg cache_dir (resolveModelName env model_name)).quantization_config = none
     ∧ (retryLoadCfg cache_dir (resolveModelName env model_name)).torch_dtype
         = TorchDtype.float32
     ∧ (retryLoadCfg cache_dir (resolveModelName env model_name)).offload_folder
         = some (cache_dir ++ "/offload")
     ∧ (retryLoadCfg cache_dir (resolveModelName env model_name)).offload_state_dict = true)
    ∧ (∀ m, fetchModel (retryLoadCfg cache_dir (resolveModelName env model_name)) = .ok m →
        load_model env cache_dir fetchTokenizer fetchModel model_name = .ok (m, tok))
    ∧ (∀ e2, fetchModel (retryLoadCfg cache_dir (resolveModelName env model_name)) = .error e2 →
        load_model env cache_dir fetchTokenizer fetchModel model_name = .error e2) := by
  refine ⟨⟨rfl, rfl, rfl, rfl⟩, ?_, ?_⟩
  · intro m hm
    simp only [load_model, htok, hfail, hm]
  · intro e2 he2
    simp only [load_model, htok, hfail, he2]

/-- Witness for C4: a first fetch that fails and a retry that succeeds. -/
theorem C4_single_retry_witness :
    load_model ⟨false, false⟩ "/cache" (fun _ => .ok ⟨fun _ => .ok [], fun _ => .ok "", 0, 0⟩)
      (fun cfg => if cfg.offload_state_dict then .ok ⟨fun _ _ => .ok []⟩
        else .error "first fetch failed")
      "Qwen/Qwen3-Coder-30B-A3B-Instruct"
      = .ok (⟨fun _ _ => .ok []⟩, ⟨fun _ => .ok [], fun _ => .ok "", 0, 0⟩) :=
  (C4_single_retry ⟨false, false⟩ "/cache" "Qwen/Qwen3-Coder-30B-A3B-Instruct"
    (fun _ => .ok ⟨fun _ => .ok [], fun _ => .ok "", 0, 0⟩)
    (fun cfg => if cfg.offload_state_dict then .ok ⟨fun _ _ => .ok []⟩
      else .error "first fetch failed")
    ⟨fun _ => .ok [], fun _ => .ok "", 0, 0⟩ "first fetch failed" rfl rfl).2.1
    ⟨fun _ _ => .ok []⟩ rfl

lemma resolveModelName_idem (env : LoadEnv) (model_name : String) :
    resolveModelName env (resolveModelName env model_name) = resolveModelName env model_name := by
  cases hc : env.cuda_available with
  | true => simp [resolveModelName, hc]
  | false =>
    by_cases h : (containsSeq "30B".data model_name.data
        || containsSeq "32B".data model_name.data) = true
    · have hf : (containsSeq "30B".data fallbackModelName.data
          || containsSeq "32B".data fallbackModelName.data) = false := by decide
      simp [resolveModelName, hc, h, hf]
    · simp [resolveModelName, hc, h]

/-- C5 (confirmed): on the CPU path a requested identifier containing "30B"
or "32B" is replaced by the fixed smaller identifier before any fetch; with
an accelerator, or without those substrings, the identifier is unchanged; and
the loader behaves exactly as if called on the resolved identifier, whose
resolution the tokenizer fetch receives. -/
theorem C5_cpu_model_substitution (env : LoadEnv) (model_name : String) :
    (env.cuda_available = false →
      (containsSeq "30B".data model_name.data || containsSeq "32B".data model_name.data) = true →
      resolveModelName env model_name = "Qwen/Qwen2.5-Coder-7B-Instruct")
    ∧ (env.cuda_available = true → resolveModelName env model_name = model_name)
    ∧ ((containsSeq "30B".data model_name.data || containsSeq "32B".data model_name.data)
        = false → resolveModelName env model_name = model_name)
    ∧ (∀ (cache_dir : String) (fetchTokenizer : String → Except String Tokenizer)
        (fetchModel : ModelLoadCfg → Except String Model) (e : String),
        fetchTokenizer (resolveModelName env model_name) = .error e →
        load_model env cache_dir fetchTokenizer fetchModel model_name = .error e)
    ∧ (∀ (cache_dir : String) (fetchTokenizer : String → Except String Tokenizer)
        (fetchModel : ModelLoadCfg → Except String Model),
        load_model env cache_dir fetchTokenizer fetchModel model_name
          = load_model env cache_dir fetchTokenizer fetchModel
              (resolveModelName env model_name)) := by
  refine ⟨?_, ?_, ?_, ?_, ?_⟩
  · intro h1 h2
    simp [resolveModelName, h1, h2, fallbackModelName]
  · intro h
    simp [resolveModelName, h]
  · intro h
    cases hc : env.cuda_available with
    | true => simp [resolveModelName, hc]
    | false => simp [resolveModelName, hc, h]
  · intro cache_dir fetchTokenizer fetchModel e h
    simp only [load_model, h]
  · intro cache_dir fetchTokenizer fetchModel
    simp only [load_model, resolveModelName_idem]

/-- Witness for C5: the default 30B model name is replaced on the CPU path. -/
theorem C5_cpu_model_substitution_witness :
    (⟨false, false⟩ : LoadEnv).cuda_available = false
    ∧ (containsSeq "30B".data ("Qwen/Qwen3-Coder-30B-A3B-Instruct" : String).data
        || containsSeq "32B".data ("Qwen/Qwen3-Coder-30B-A3B-Instruct" : String).data) = true
    ∧ resolveModelName ⟨false, false⟩ "Qwen/Qwen3-Coder-30B-A3B-Instruct"
        = "Qwen/Qwen2.5-Coder-7B-Instruct" :=
  ⟨rfl, by decide,
   (C5_cpu_model_substitution ⟨false, false⟩ "Qwen/Qwen3-Coder-30B-A3B-Instruct").1 rfl
     (by decide)⟩

/-- C6 counterexample: a successful response whose content still contains the
end-of-turn marker.  Python `replace` is a single left-to-right pass: in the
decoded text "<|im_e<|im_end|>nd|>" it removes the one marker occurrence,
and the juxtaposed remnants "<|im_e" and "nd|>" spell the marker again, which
survives into the returned content. -/
theorem C6_marker_removal_counterexample :
    generate ⟨some ⟨fun _ _ => .ok [1, 2]⟩,
        some ⟨fun _ => .ok [1], fun _ => .ok "<|im_e<|im_end|>nd|>", 0, 0⟩⟩
      ⟨[], 512, 1, 1, 40, false⟩
      = .ok ⟨"<|im_end|>", ⟨1, 1, 2⟩⟩
    ∧ containsSeq endMarker ("<|im_end|>" : String).data = true :=
  ⟨rfl, rfl⟩

/-- C6 (corrected): every successful response content has no leading and no
trailing whitespace; and marker removal is a single non-overlapping
left-to-right pass, so the content is guaranteed marker-free whenever the
decoded text was marker-free — but, as the counterexample shows, deletions
can juxtapose fragments that spell the marker again, so the universal
marker-free claim fails. -/
theorem C6_marker_removal_amended :
    (∀ (state : ServerState) (request : GenerateRequest) (resp : GenerateResponse),
       generate state request = .ok resp →
       (∀ c, resp.content.data.head? = some c → isPySpace c = false)
       ∧ (∀ c, resp.content.data.getLast? = some c → isPySpace c = false))
    ∧ (∀ prompt generated : String, containsSeq endMarker generated.data = false →
        containsSeq endMarker (extractContent prompt generated).data = false) := by
  constructor
  · intro state request resp h
    rcases state with ⟨m, t⟩
    cases m with
    | none => cases t <;> exact Except.noConfusion h
    | some model =>
      cases t with
      | none => exact Except.noConfusion h
      | some tok =>
        simp only [generate] at h
        split at h
        · exact Except.noConfusion h
        · split at h
          · exact Except.noConfusion h
          · split at h
            · exact Except.noConfusion h
            · injection h with h
              subst h
              exact ⟨fun c hc => pyStrip_head _ c hc, fun c hc => pyStrip_last _ c hc⟩
  · intro prompt generated h
    simp only [extractContent]
    by_cases hc2 : containsSeq prompt.data generated.data = true
    · rw [if_pos hc2]
      have hdrop : containsSeq endMarker (generated.data.drop prompt.data.length) = false :=
        containsSeq_false_of_substring _ _ _ (List.drop_suffix _ _).isInfix h
      rw [removeEndMarkers_marker_free _ hdrop]
      exact containsSeq_false_of_substring _ _ _ (pyStrip_substring _) hdrop
    · rw [if_neg hc2]
      rw [removeEndMarkers_marker_free _ h]
      exact containsSeq_false_of_substring _ _ _ (pyStrip_substring _) h

/-- Witness for the amended C6: a concrete successful response has unpadded
content, and a marker-free decoded text yields marker-free content. -/
theorem C6_marker_removal_amended_witness :
    (∀ c, (extractContent (format_messages []) "  hi  ").data.head? = some c →
       isPySpace c = false)
    ∧ containsSeq endMarker ("no marker here" : String).data = false
    ∧ containsSeq endMarker (extractContent "p" "no marker here").data = false :=
  ⟨(C6_marker_removal_amended.1
      ⟨some ⟨fun _ _ => .ok [1, 2]⟩, some ⟨fun _ => .ok [1], fun _ => .ok "  hi  ", 0, 0⟩⟩
      ⟨[], 512, 1, 1, 40, false⟩ ⟨extractContent (format_messages []) "  hi  ", ⟨1, 1, 2⟩⟩
      rfl).1,
   by decide,
   C6_marker_removal_amended.2 "p" "no marker here" (by decide)⟩
